import Mathlib

/-!
Verification of the variable parameter binding subsystem of plv8 (plv8js).

The data structure `plv8_param_state` and the signatures of
`plv8_variable_param_setup` and `plv8_setup_variable_paramlist` come from
src/plv8_param.h.  The function bodies live in plv8_param.cc, which is not
among the supplied sources, so the operational behaviour is modelled from the
specification (spec.md sections 3, 4, 7, 8); each such definition says so in
its doc comment.
-/

/-- PostgreSQL object identifier: the type tag of a parameter position. -/
abbrev Oid := Nat

/-- A PostgreSQL datum: an opaque value slot, modelled as an integer. -/
abbrev Datum := Int

/-- An opaque memory-context (allocation scope) identifier. -/
abbrev MemoryContext := Nat

/-- Mirror of `plv8_param_state` from src/plv8_param.h: an array of parameter
type OIDs (`paramTypes`), the number of array entries (`numParams`, a C `int`,
hence modelled as `Int`), and the memory context in which the parameter list
is to be allocated. -/
structure plv8_param_state where
  paramTypes : List Oid
  numParams : Int
  memcontext : MemoryContext
deriving Repr, DecidableEq

/-- One entry of the materialized parameter list (PostgreSQL's
`ParamExternData`): a value, a null marker, and a declared type. -/
structure ParamExternData where
  value : Datum
  isnull : Bool
  ptype : Oid
deriving Repr, DecidableEq

/-- The spec's validity precondition on a `Build Parameter List` call:
`paramTypes` has exactly `numParams` entries and the `values` and `nulls`
arrays each have at least `numParams` entries. -/
abbrev paramsValid (parstate : plv8_param_state)
    (values : List Datum) (nulls : List Bool) : Prop :=
  parstate.numParams = (parstate.paramTypes.length : Int) ∧
  parstate.numParams.toNat ≤ values.length ∧
  parstate.numParams.toNat ≤ nulls.length

/-- Modelled from the spec: the body of `plv8_setup_variable_paramlist`
(declared in src/plv8_param.h; its implementation file plv8_param.cc is not
among the supplied sources).  Per spec.md section 4.1 it produces a parameter
list of exactly `numParams` entries, entry i tagged with `paramTypes[i]` and
carrying the supplied value together with a null marker taken from `nulls[i]`;
a mismatch between `numParams` and the array lengths violates the precondition
and fails fast (modelled as `none`). -/
def plv8_setup_variable_paramlist (parstate : plv8_param_state)
    (values : List Datum) (nulls : List Bool) :
    Option (List ParamExternData) :=
  if paramsValid parstate values nulls then
    some ((List.range parstate.numParams.toNat).map fun i =>
      { value := values.getD i 0
        isnull := nulls.getD i false
        ptype := parstate.paramTypes.getD i 0 })
  else none

theorem paramlist_length_of_valid (parstate : plv8_param_state)
    (values : List Datum) (nulls : List Bool)
    (h : paramsValid parstate values nulls) :
    (plv8_setup_variable_paramlist parstate values nulls).map List.length
      = some parstate.numParams.toNat := by
  simp only [plv8_setup_variable_paramlist, if_pos h, Option.map_some',
    List.length_map, List.length_range]

theorem paramlist_entry (parstate : plv8_param_state)
    (values : List Datum) (nulls : List Bool)
    (h : paramsValid parstate values nulls)
    (i : Nat) (hi : i < parstate.numParams.toNat) (d : ParamExternData) :
    (plv8_setup_variable_paramlist parstate values nulls).map
        (fun l => l.getD i d)
      = some { value := values.getD i 0, isnull := nulls.getD i false,
               ptype := parstate.paramTypes.getD i 0 } := by
  simp only [plv8_setup_variable_paramlist, if_pos h, Option.map_some']
  congr 1
  rw [List.getD_eq_getElem?_getD, List.getElem?_map, List.getElem?_range hi]
  rfl

/-- Claim C1: for every call to Build Parameter List with a parameter state
whose `paramTypes` has exactly `numParams` entries and with `values` and
`nulls` arrays of at least `numParams` entries, the returned parameter list
has exactly `numParams` entries. -/
theorem C1_paramlist_length (parstate : plv8_param_state)
    (values : List Datum) (nulls : List Bool)
    (h : paramsValid parstate values nulls) :
    (plv8_setup_variable_paramlist parstate values nulls).map List.length
      = some parstate.numParams.toNat :=
  paramlist_length_of_valid parstate values nulls h

/-- Witness for C1 at `paramTypes = [23, 25]`, `numParams = 2`,
`values = [42, 7]`, `nulls = [false, false]`. -/
theorem C1_witness :
    (plv8_setup_variable_paramlist ⟨[23, 25], 2, 0⟩ [42, 7]
        [false, false]).map List.length = some 2 :=
  C1_paramlist_length ⟨[23, 25], 2, 0⟩ [42, 7] [false, false] (by decide)

/-- Claim C2: for every call to Build Parameter List with valid inputs and
every index i with 0 <= i < numParams, the type identifier of entry i of the
returned parameter list equals `paramTypes[i]` of the supplied parameter
state. -/
theorem C2_entry_type (parstate : plv8_param_state)
    (values : List Datum) (nulls : List Bool)
    (h : paramsValid parstate values nulls)
    (i : Nat) (hi : i < parstate.numParams.toNat) (d : ParamExternData) :
    (plv8_setup_variable_paramlist parstate values nulls).map
        (fun l => (l.getD i d).ptype)
      = some (parstate.paramTypes.getD i 0) := by
  have hswap :
      (plv8_setup_variable_paramlist parstate values nulls).map
          (fun l => (l.getD i d).ptype)
        = ((plv8_setup_variable_paramlist parstate values nulls).map
            (fun l => l.getD i d)).map ParamExternData.ptype := by
    cases plv8_setup_variable_paramlist parstate values nulls <;> rfl
  rw [hswap, paramlist_entry parstate values nulls h i hi d]
  rfl

/-- Witness for C2 at `paramTypes = [23, 25]`, entry 1. -/
theorem C2_witness :
    (plv8_setup_variable_paramlist ⟨[23, 25], 2, 0⟩ [42, 7]
        [false, false]).map (fun l => (l.getD 1 ⟨0, false, 0⟩).ptype)
      = some 25 :=
  C2_entry_type ⟨[23, 25], 2, 0⟩ [42, 7] [false, false] (by decide)
    1 (by decide) ⟨0, false, 0⟩

/-- Claim C3: for every call to Build Parameter List with valid inputs and
every index i where `nulls[i]` indicates null, entry i of the returned
parameter list carries a null marker, for every possible content of
`values[i]` (the statement quantifies over all `values` arrays). -/
theorem C3_null_marker (parstate : plv8_param_state)
    (values : List Datum) (nulls : List Bool)
    (h : paramsValid parstate values nulls)
    (i : Nat) (hi : i < parstate.numParams.toNat)
    (hnull : nulls.getD i false = true) (d : ParamExternData) :
    (plv8_setup_variable_paramlist parstate values nulls).map
        (fun l => (l.getD i d).isnull)
      = some true := by
  have hswap :
      (plv8_setup_variable_paramlist parstate values nulls).map
          (fun l => (l.getD i d).isnull)
        = ((plv8_setup_variable_paramlist parstate values nulls).map
            (fun l => l.getD i d)).map ParamExternData.isnull := by
    cases plv8_setup_variable_paramlist parstate values nulls <;> rfl
  rw [hswap, paramlist_entry parstate values nulls h i hi d]
  simp only [Option.map_some']
  exact congrArg some hnull

/-- Witness for C3: the spec's example `paramTypes = [INT]` (OID 23),
`values = [0]`, `nulls = [true]`; entry 0 carries the null marker. -/
theorem C3_witness :
    (plv8_setup_variable_paramlist ⟨[23], 1, 0⟩ [0]
        [true]).map (fun l => (l.getD 0 ⟨0, false, 0⟩).isnull)
      = some true :=
  C3_null_marker ⟨[23], 1, 0⟩ [0] [true] (by decide)
    0 (by decide) (by decide) ⟨0, false, 0⟩

/-- Claim C5: for every call to Build Parameter List where `numParams` does
not match the lengths of the `values`, `nulls`, or `paramTypes` arrays, the
operation fails fast (returns no list), and — the model being a total
function over lists — no out-of-bounds read of any of those arrays occurs. -/
theorem C5_mismatch_fails (parstate : plv8_param_state)
    (values : List Datum) (nulls : List Bool)
    (h : parstate.numParams ≠ (parstate.paramTypes.length : Int)
       ∨ values.length < parstate.numParams.toNat
       ∨ nulls.length < parstate.numParams.toNat) :
    plv8_setup_variable_paramlist parstate values nulls = none := by
  have hnv : ¬ paramsValid parstate values nulls := by
    intro hv
    rcases h with h1 | h2 | h3
    · exact h1 hv.1
    · exact absurd hv.2.1 (not_le.mpr h2)
    · exact absurd hv.2.2 (not_le.mpr h3)
  simp [plv8_setup_variable_paramlist, hnv]

/-- Witness for C5: `numParams = 2` but only one entry in `paramTypes`. -/
theorem C5_witness :
    plv8_setup_variable_paramlist ⟨[23], 2, 0⟩ [0, 0] [false, false]
      = none :=
  C5_mismatch_fails ⟨[23], 2, 0⟩ [0, 0] [false, false]
    (Or.inl (by decide))

/-- A reference to a dynamically-typed parameter encountered while parsing a
statement, together with the type the analysis phase can determine for it
(`none` means the type cannot be resolved). -/
structure ParamRef where
  resolvedType : Option Oid
deriving Repr, DecidableEq

/-- The part of PostgreSQL's `ParseState` relevant here: the dynamically-typed
parameter references of the statement being parsed. -/
structure ParseState where
  p_refs : List ParamRef
deriving Repr, DecidableEq

/-- The one error class of the subsystem's analysis phase: a referenced
parameter's type cannot be resolved. -/
inductive CompileError where
  | unresolvedParamType : CompileError
deriving Repr, DecidableEq

/-- Modelled from the spec: the type-recording walk of
`plv8_variable_param_setup` (plv8_param.cc is not among the supplied
sources).  Each parameter reference either contributes its resolved type or
signals the compilation-time error. -/
def resolveParamTypes : List ParamRef → Except CompileError (List Oid)
  | [] => .ok []
  | r :: rs =>
    match r.resolvedType with
    | none => .error .unresolvedParamType
    | some t => (resolveParamTypes rs).map (fun ts => t :: ts)

/-- Modelled from the spec: `plv8_variable_param_setup` (declared in
src/plv8_param.h; implementation absent).  It inspects the parse state and
records the resolved parameter types into the shared `plv8_param_state`
reachable via the auxiliary argument, keeping `numParams` equal to the length
of `paramTypes`; an unresolvable type is a compilation-time error. -/
def plv8_variable_param_setup (pstate : ParseState)
    (arg : plv8_param_state) : Except CompileError plv8_param_state :=
  (resolveParamTypes pstate.p_refs).map fun ts =>
    { paramTypes := ts, numParams := (ts.length : Int)
      memcontext := arg.memcontext }

/-- The phase at which processing of a statement fails: during
compilation/analysis (Setup) or during execution-time binding (Build). -/
inductive PhaseFailure where
  | analysisTime : CompileError → PhaseFailure
  | executionTime : PhaseFailure
deriving Repr, DecidableEq

/-- The two-phase pipeline of the subsystem: Setup during statement parsing,
then Build Parameter List during execution binding. -/
def bindStatement (pstate : ParseState) (init : plv8_param_state)
    (values : List Datum) (nulls : List Bool) :
    Except PhaseFailure (List ParamExternData) :=
  match plv8_variable_param_setup pstate init with
  | .error e => .error (.analysisTime e)
  | .ok st =>
    match plv8_setup_variable_paramlist st values nulls with
    | none => .error .executionTime
    | some l => .ok l

theorem resolveParamTypes_unresolved (refs : List ParamRef)
    (h : ∃ r ∈ refs, r.resolvedType = none) :
    resolveParamTypes refs = .error .unresolvedParamType := by
  induction refs with
  | nil => simp at h
  | cons r rs ih =>
    obtain ⟨r', hmem, hnone⟩ := h
    cases hmem with
    | head => simp [resolveParamTypes, hnone]
    | tail _ htail =>
      cases hrt : r.resolvedType with
      | none => simp [resolveParamTypes, hrt]
      | some t =>
        simp [resolveParamTypes, hrt, ih ⟨r', htail, hnone⟩, Except.map]

/-- Claim C6: for every invocation of Setup during statement parsing in which
a referenced parameter's type cannot be resolved, Setup signals the error at
compilation/analysis time, and the two-phase pipeline fails in the analysis
phase — never deferred to execution-time binding. -/
theorem C6_setup_fails_at_analysis (pstate : ParseState)
    (init : plv8_param_state) (values : List Datum) (nulls : List Bool)
    (h : ∃ r ∈ pstate.p_refs, r.resolvedType = none) :
    plv8_variable_param_setup pstate init = .error .unresolvedParamType ∧
    bindStatement pstate init values nulls
      = .error (.analysisTime .unresolvedParamType) := by
  have hr := resolveParamTypes_unresolved pstate.p_refs h
  refine ⟨?_, ?_⟩
  · simp [plv8_variable_param_setup, hr, Except.map]
  · simp [bindStatement, plv8_variable_param_setup, hr, Except.map]

/-- Witness for C6: a parse state with one unresolvable parameter reference;
the whole pipeline fails at analysis time. -/
theorem C6_witness :
    plv8_variable_param_setup ⟨[⟨none⟩]⟩ ⟨[], 0, 7⟩
        = .error .unresolvedParamType ∧
    bindStatement ⟨[⟨none⟩]⟩ ⟨[], 0, 7⟩ [] []
        = .error (.analysisTime .unresolvedParamType) :=
  C6_setup_fails_at_analysis ⟨[⟨none⟩]⟩ ⟨[], 0, 7⟩ [] []
    ⟨⟨none⟩, by decide, rfl⟩

/-- Claim C8: in every parameter state produced by Setup, `numParams` is a
non-negative integer equal to the length of `paramTypes`; this invariant is
consumed by Build Parameter List so that the materialized list's length
equals `numParams` and each entry's declared type matches the corresponding
`paramTypes` entry. -/
theorem C8_count_invariant (pstate : ParseState)
    (init st : plv8_param_state)
    (hs : plv8_variable_param_setup pstate init = .ok st)
    (values : List Datum) (nulls : List Bool)
    (hv : st.numParams.toNat ≤ values.length)
    (hn : st.numParams.toNat ≤ nulls.length) :
    (0 ≤ st.numParams ∧ st.numParams = (st.paramTypes.length : Int)) ∧
    (plv8_setup_variable_paramlist st values nulls).map List.length
      = some st.numParams.toNat ∧
    ∀ i, i < st.numParams.toNat → ∀ d : ParamExternData,
      (plv8_setup_variable_paramlist st values nulls).map
          (fun l => (l.getD i d).ptype)
        = some (st.paramTypes.getD i 0) := by
  have hwf : 0 ≤ st.numParams ∧ st.numParams = (st.paramTypes.length : Int) := by
    cases hres : resolveParamTypes pstate.p_refs with
    | error e =>
      exfalso
      simp [plv8_variable_param_setup, hres, Except.map] at hs
    | ok ts =>
      simp only [plv8_variable_param_setup, hres, Except.map] at hs
      cases hs
      exact ⟨Int.ofNat_nonneg _, rfl⟩
  have hvalid : paramsValid st values nulls := ⟨hwf.2, hv, hn⟩
  refine ⟨hwf, paramlist_length_of_valid st values nulls hvalid, ?_⟩
  intro i hi d
  have hswap :
      (plv8_setup_variable_paramlist st values nulls).map
          (fun l => (l.getD i d).ptype)
        = ((plv8_setup_variable_paramlist st values nulls).map
            (fun l => l.getD i d)).map ParamExternData.ptype := by
    cases plv8_setup_variable_paramlist st values nulls <;> rfl
  rw [hswap, paramlist_entry st values nulls hvalid i hi d]
  rfl

/-- Witness for C8: Setup over two resolvable references, then Build. -/
theorem C8_witness :
    (0 ≤ (2 : Int) ∧ (2 : Int) = (([23, 25] : List Oid).length : Int)) ∧
    (plv8_setup_variable_paramlist ⟨[23, 25], 2, 7⟩ [5, 6]
        [false, true]).map List.length = some 2 ∧
    ∀ i, i < 2 → ∀ d : ParamExternData,
      (plv8_setup_variable_paramlist ⟨[23, 25], 2, 7⟩ [5, 6]
          [false, true]).map (fun l => (l.getD i d).ptype)
        = some (([23, 25] : List Oid).getD i 0) :=
  C8_count_invariant ⟨[⟨some 23⟩, ⟨some 25⟩]⟩ ⟨[], 0, 7⟩
    ⟨[23, 25], 2, 7⟩ rfl [5, 6] [false, true] (by decide) (by decide)

/-- A model of the host allocator's state: the list of live blocks, each
tagged with the memory context that owns it, plus a fresh-block counter. -/
structure Heap where
  blocks : List (MemoryContext × Nat)
  nextId : Nat
deriving Repr, DecidableEq

/-- Heap well-formedness: every live block id is below the fresh counter. -/
abbrev Heap.wf (h : Heap) : Prop := ∀ b ∈ h.blocks, b.2 < h.nextId

/-- A block id is reachable (live) in a heap. -/
abbrev Heap.live (h : Heap) (blk : Nat) : Prop :=
  blk ∈ h.blocks.map Prod.snd

/-- Allocate a fresh block owned by the given memory context. -/
def palloc (ctx : MemoryContext) (h : Heap) : Nat × Heap :=
  (h.nextId, { blocks := (ctx, h.nextId) :: h.blocks, nextId := h.nextId + 1 })

/-- Releasing an allocation scope: every block owned by the context is
reclaimed at once, exactly when the scope ends. -/
def MemoryContextReset (ctx : MemoryContext) (h : Heap) : Heap :=
  { blocks := h.blocks.filter (fun b => b.1 != ctx), nextId := h.nextId }

/-- Modelled from the spec: the allocation behaviour of
`plv8_setup_variable_paramlist` (implementation file absent).  The returned
parameter list is materialized in a single block allocated within the memory
context recorded in the supplied parameter state. -/
def plv8_setup_variable_paramlist_mem (parstate : plv8_param_state)
    (values : List Datum) (nulls : List Bool) (h : Heap) :
    Option ((Nat × List ParamExternData) × Heap) :=
  match plv8_setup_variable_paramlist parstate values nulls with
  | none => none
  | some l =>
    let p := palloc parstate.memcontext h
    some ((p.1, l), p.2)

/-- Claim C4: every allocation performed by Build Parameter List, including
the block holding the returned parameter list, is made within the memory
context recorded in the supplied parameter state, and that block is no longer
live (unreachable, hence no dangling access) once that scope is reset. -/
theorem C4_alloc_in_scope (parstate : plv8_param_state)
    (values : List Datum) (nulls : List Bool) (h : Heap)
    (r : Nat × List ParamExternData) (h' : Heap)
    (hwf : Heap.wf h)
    (hb : plv8_setup_variable_paramlist_mem parstate values nulls h
            = some (r, h')) :
    (∀ b ∈ h'.blocks, b ∉ h.blocks → b.1 = parstate.memcontext) ∧
    ¬ Heap.live (MemoryContextReset parstate.memcontext h') r.1 := by
  cases hpl : plv8_setup_variable_paramlist parstate values nulls with
  | none =>
    exfalso
    simp [plv8_setup_variable_paramlist_mem, hpl] at hb
  | some l =>
    simp only [plv8_setup_variable_paramlist_mem, hpl, palloc,
      Option.some.injEq, Prod.mk.injEq] at hb
    obtain ⟨rfl, rfl⟩ := hb
    constructor
    · intro b hbmem hbnot
      rcases List.mem_cons.mp hbmem with hhead | htail
      · rw [hhead]
      · exact absurd htail hbnot
    · intro hlive
      simp only [MemoryContextReset, List.mem_map] at hlive
      obtain ⟨b, hbmem, hb2⟩ := hlive
      rcases List.mem_filter.mp hbmem with ⟨hbmem', hbne⟩
      rcases List.mem_cons.mp hbmem' with hhead | htail
      · rw [hhead] at hbne
        simp at hbne
      · have hlt := hwf b htail
        have hb2' : b.2 = h.nextId := hb2
        omega

/-- Witness for C4: building over the empty heap in context 5; the fresh
block is owned by context 5 and dead after that context is reset. -/
theorem C4_witness :
    ¬ Heap.live (MemoryContextReset 5 ⟨[(5, 0)], 1⟩) 0 :=
  (C4_alloc_in_scope ⟨[23], 1, 5⟩ [42] [false] ⟨[], 0⟩
    (0, [⟨42, false, 23⟩]) ⟨[(5, 0)], 1⟩ (by decide) (by decide)).2

/-- A fatal error of the host allocation scope (PostgreSQL elog level). -/
inductive FatalError where
  | outOfMemory : FatalError
deriving Repr, DecidableEq

/-- Modelled from the spec: Build Parameter List against an allocation oracle.
Each allocation attempt consumes one outcome from the oracle; a failed
attempt is a fatal error of the host allocation scope, propagated as is —
no local recovery, and the remaining oracle outcomes are never consumed. -/
def plv8_setup_variable_paramlist_fallible (parstate : plv8_param_state)
    (values : List Datum) (nulls : List Bool) (h : Heap) :
    List Bool →
      Except FatalError (Heap × Nat × Option (List ParamExternData))
        × List Bool
  | [] => (.error .outOfMemory, [])
  | ok :: rest =>
    if ok then
      let p := palloc parstate.memcontext h
      (.ok (p.2, p.1, plv8_setup_variable_paramlist parstate values nulls),
        rest)
    else
      (.error .outOfMemory, rest)

/-- Claim C7: when the (single) allocation performed by Build Parameter List
fails, the failure propagates as a fatal error of the host allocation scope:
no local recovery happens and no retry is attempted — exactly one oracle
outcome is consumed and the rest are returned untouched, whatever they are. -/
theorem C7_alloc_failure_fatal (parstate : plv8_param_state)
    (values : List Datum) (nulls : List Bool) (h : Heap)
    (rest : List Bool) :
    plv8_setup_variable_paramlist_fallible parstate values nulls h
        (false :: rest)
      = (.error .outOfMemory, rest) := by
  simp [plv8_setup_variable_paramlist_fallible]

/-- The three plv8 string configuration variables exercised by the SQL test
(SET plv8.start_proc / plv8.icu_data / plv8.v8_flags followed by SHOW). -/
inductive GucVar where
  | start_proc : GucVar
  | icu_data : GucVar
  | v8_flags : GucVar
deriving Repr, DecidableEq

/-- The stored values of the three plv8 string configuration variables. -/
structure GucState where
  start_proc : String
  icu_data : String
  v8_flags : String
deriving Repr, DecidableEq

/-- Modelled from the spec: the SQL `SET` command on a plv8 string
configuration variable (the GUC registration code of plv8.cc is not among
the supplied sources; the SQL test in src/unnamed/part_000 exercises it).
`SET` stores the given string into the named variable. -/
def gucSet (s : GucState) (v : GucVar) (x : String) : GucState :=
  match v with
  | .start_proc => { s with start_proc := x }
  | .icu_data => { s with icu_data := x }
  | .v8_flags => { s with v8_flags := x }

/-- Modelled from the spec: the SQL `SHOW` command on a plv8 string
configuration variable; it reads the stored string back. -/
def gucShow (s : GucState) (v : GucVar) : String :=
  match v with
  | .start_proc => s.start_proc
  | .icu_data => s.icu_data
  | .v8_flags => s.v8_flags

/-- Claim C9: for each of plv8.start_proc, plv8.icu_data and plv8.v8_flags,
a SET with a string value followed by SHOW returns exactly the value that
was set, from any prior state (the SET/SHOW round-trip identity; the SQL
test sets 'foo', 'bar' and 'baz' respectively). -/
theorem C9_set_show_roundtrip (s : GucState) (v : GucVar) (x : String) :
    gucShow (gucSet s v x) v = x := by
  cases v <;> rfl

/-- The plv8.execution_timeout configuration variable, in seconds (its GUC
registration code is not among the supplied sources; docs/BUILDING.md
documents it). -/
structure ExecutionTimeoutGuc where
  execution_timeout : Int
deriving Repr, DecidableEq

/-- Modelled from the spec (docs/BUILDING.md): when the execution-timeout
feature is compiled in, the timeout defaults to 300 seconds (5 minutes). -/
def executionTimeoutDefault : ExecutionTimeoutGuc := ⟨300⟩

/-- Modelled from the spec (docs/BUILDING.md): plv8.execution_timeout can be
set between 1 second and 65536 seconds; any other value is rejected and the
timeout cannot be disabled. -/
def setExecutionTimeout (_g : ExecutionTimeoutGuc) (v : Int) :
    Option ExecutionTimeoutGuc :=
  if 1 ≤ v ∧ v ≤ 65536 then some ⟨v⟩ else none

/-- A disabled timeout would be a non-positive number of seconds. -/
abbrev timeoutDisabled (g : ExecutionTimeoutGuc) : Prop :=
  g.execution_timeout ≤ 0

/-- Claim C10: plv8.execution_timeout defaults to 300 seconds, accepts
exactly the values between 1 and 65536 seconds inclusive, and no accepted
value ever disables the timeout. -/
theorem C10_execution_timeout (g : ExecutionTimeoutGuc) (v : Int) :
    executionTimeoutDefault.execution_timeout = 300 ∧
    ((setExecutionTimeout g v).isSome ↔ (1 ≤ v ∧ v ≤ 65536)) ∧
    (∀ g', setExecutionTimeout g v = some g' → ¬ timeoutDisabled g') := by
  refine ⟨rfl, ?_, ?_⟩
  · constructor
    · intro hs
      by_contra hrange
      simp [setExecutionTimeout, hrange] at hs
    · intro hrange
      simp [setExecutionTimeout, hrange]
  · intro g' hset
    by_cases hrange : 1 ≤ v ∧ v ≤ 65536
    · simp only [setExecutionTimeout, if_pos hrange, Option.some.injEq]
        at hset
      subst hset
      simp only [timeoutDisabled]
      omega
    · simp [setExecutionTimeout, hrange] at hset

/-- Witness for C10: setting 500 seconds succeeds and the resulting timeout
is not disabled. -/
theorem C10_witness : ¬ timeoutDisabled ⟨500⟩ :=
  (C10_execution_timeout executionTimeoutDefault 500).2.2 ⟨500⟩ (by decide)
